import Mathlib

/-!
Shallow embedding of src/src/models/logging.py, the Viam sensor component
that reads the Windows event log.  Machine integers are modelled as Nat/Int,
protobuf doubles as rationals, and Python exceptions as explicit Except /
Option error values.  Each definition mirrors one Python function of the
source, with the win32evtlog platform API abstracted as a record of fallible
functions.
-/

/-- Severity of a line sent to the host logging sink (self.logger). -/
inductive Severity where
  | info
  | error
deriving DecidableEq, Repr

/-- One line emitted to the host logging sink. -/
structure LogLine where
  severity : Severity
  msg : String
deriving DecidableEq, Repr

/-- Python exceptions that the embedded code can raise. -/
inductive PyError where
  | attributeError (attr : String)
  | notImplementedError
deriving DecidableEq, Repr

/-- A protobuf `google.protobuf.Value` (the value type of
`ComponentConfig.attributes.fields`).  The struct and list kinds carry no
payload because the source never inspects them. -/
inductive PValue where
  | nullValue
  | numberValue (x : ℚ)
  | stringValue (s : String)
  | boolValue (b : Bool)
  | structValue
  | listValue
deriving DecidableEq, Repr

/-- Protobuf oneof accessor `.string_value`: the stored string when the
string kind is set, the default empty string otherwise. -/
def PValue.string_value : PValue → String
  | .stringValue s => s
  | _ => ""

/-- Protobuf oneof accessor `.number_value`: the stored number when the
number kind is set, the default 0 otherwise. -/
def PValue.number_value : PValue → ℚ
  | .numberValue x => x
  | _ => 0

/-- The configuration object delivered by the host: the string-keyed field
map of `config.attributes` (a protobuf Struct). -/
structure ComponentConfig where
  attributes : List (String × PValue)
deriving DecidableEq, Repr

/-- Protobuf message-map `.get(key)`: `some` of the stored value when the
key is present, `none` (Python None) when absent.  Unlike `fields[key]`,
`fields.get(key)` does not auto-insert a default. -/
def ComponentConfig.fieldsGet (config : ComponentConfig) (key : String) :
    Option PValue :=
  List.lookup key config.attributes

/-- Python `a or b` on strings: the empty string is falsy. -/
def pyOrString (a b : String) : String :=
  if a = "" then b else a

/-- Python `a or b` on numbers: zero is falsy. -/
def pyOrNum (a b : ℚ) : ℚ :=
  if a = 0 then b else a

/-- Python `int(x)` on a number: truncation toward zero. -/
def pyInt (q : ℚ) : ℤ :=
  if 0 ≤ q then ⌊q⌋ else ⌈q⌉

/-- Python slice `xs[:n]` for an int `n`: the first `n` elements when
`n ≥ 0`, all but the last `-n` elements when `n < 0`. -/
def pySliceTo (n : ℤ) (xs : List α) : List α :=
  if 0 ≤ n then xs.take n.toNat else xs.take (xs.length - (-n).toNat)

/-- The three configuration fields held on the component (self.server,
self.log_type, self.num_entries). -/
structure LoggingState where
  server : String
  log_type : String
  num_entries : ℤ
deriving DecidableEq, Repr

/-- A native event record as returned by win32evtlog.ReadEventLog.
TimeGenerated is kept in its str()-ed form, because the source only ever
applies str() to it. -/
structure EventEntry where
  TimeGenerated : String
  SourceName : String
  EventID : ℕ
  EventType : ℤ
  EventCategory : ℤ
deriving DecidableEq, Repr

/-- Flag constant EVENTLOG_BACKWARDS_READ of the platform API. -/
def EVENTLOG_BACKWARDS_READ : ℕ := 8

/-- Flag constant EVENTLOG_SEQUENTIAL_READ of the platform API. -/
def EVENTLOG_SEQUENTIAL_READ : ℕ := 1

/-- The flag word the source passes to ReadEventLog. -/
def readFlags : ℕ := EVENTLOG_BACKWARDS_READ ||| EVENTLOG_SEQUENTIAL_READ

/-- The win32evtlog platform module, as the oracle get_readings calls into:
each call either returns a value or raises (modelled as Except with a str(e)
message).  hasFormatMessage models hasattr(win32evtlog, "FormatMessage"). -/
structure Win32EvtLog where
  OpenEventLog : String → String → Except String ℕ
  ReadEventLog : ℕ → ℕ → ℕ → Except String (List EventEntry)
  hasFormatMessage : Bool
  FormatMessage : EventEntry → Except String String
  CloseEventLog : ℕ → Except String Unit

/-- One normalized output record, the dict built per event in
get_readings. -/
structure LogRecord where
  TimeGenerated : String
  SourceName : String
  EventID : ℕ
  EventType : ℤ
  EventCategory : ℤ
  Message : Option String
deriving DecidableEq, Repr

/-- One element of the "windows_logs" sequence: either a normalized log
record or the single error dict of the failure path. -/
inductive ReadingCell where
  | entry (r : LogRecord)
  | err (msg : String)
deriving DecidableEq, Repr

/-- Initial state set by Logging.__init__. -/
def Logging.init : LoggingState :=
  { server := "localhost", log_type := "Application", num_entries := 5 }

/-- Logging.validate_config: returns an empty required-dependency list and
an empty optional-dependency list for every config. -/
def Logging.validate_config (_config : ComponentConfig) :
    List String × List String :=
  ([], [])

/-- Logging.reconfigure.  Each of the three assignments evaluates
`config.attributes.fields.get(k).<accessor> or default`; a missing key makes
`.get` return None and the accessor raise AttributeError, leaving the fields
already assigned in place and the rest unchanged.  On success the info line
is emitted and no error is reported. -/
def Logging.reconfigure (config : ComponentConfig) (s : LoggingState) :
    LoggingState × List LogLine × Option PyError :=
  match config.fieldsGet "server" with
  | none => (s, [], some (.attributeError "string_value"))
  | some v1 =>
    let s1 : LoggingState := { s with server := pyOrString v1.string_value "localhost" }
    match config.fieldsGet "log_type" with
    | none => (s1, [], some (.attributeError "string_value"))
    | some v2 =>
      let s2 : LoggingState := { s1 with log_type := pyOrString v2.string_value "Application" }
      match config.fieldsGet "num_entries" with
      | none => (s2, [], some (.attributeError "number_value"))
      | some v3 =>
        let s3 : LoggingState := { s2 with num_entries := pyInt (pyOrNum v3.number_value 5) }
        (s3,
         [⟨.info, "Configured Logging module for " ++ s3.server ++ ":" ++ s3.log_type
            ++ " (showing " ++ toString s3.num_entries ++ " entries)"⟩],
         none)

/-- The record dict built for one event inside the loop of get_readings:
EventID is masked with 0xFFFF, Message is FormatMessage(event) when the
platform has that attribute and None otherwise.  FormatMessage may raise. -/
def buildRecord (w : Win32EvtLog) (event : EventEntry) :
    Except String LogRecord := do
  let message ← if w.hasFormatMessage then
      Except.map some (w.FormatMessage event)
    else .ok none
  .ok { TimeGenerated := event.TimeGenerated
        SourceName := event.SourceName
        EventID := event.EventID &&& 0xFFFF
        EventType := event.EventType
        EventCategory := event.EventCategory
        Message := message }

/-- The loop of get_readings: records accumulate in order; a raise anywhere
abandons the whole list. -/
def buildRecords (w : Win32EvtLog) : List EventEntry → Except String (List LogRecord)
  | [] => .ok []
  | event :: rest => do
    let r ← buildRecord w event
    let rs ← buildRecords w rest
    .ok (r :: rs)

/-- The try-block of get_readings: open, read, slice to num_entries, build
the records, close, return them; the first raise aborts the block. -/
def getReadingsTry (w : Win32EvtLog) (s : LoggingState) :
    Except String (List LogRecord) := do
  let handle ← w.OpenEventLog s.server s.log_type
  let events ← w.ReadEventLog handle readFlags 0
  let logs ← buildRecords w (pySliceTo s.num_entries events)
  let _ ← w.CloseEventLog handle
  .ok logs

/-- Logging.get_readings: runs the try-block; on success the readings dict
maps "windows_logs" to the record sequence, on any exception e it logs the
error and maps "windows_logs" to the one-element sequence holding the dict
with key "error" and value str(e).  The component state is returned
unchanged (the method never assigns to self).  It always returns a readings
mapping and never re-raises. -/
def Logging.get_readings (w : Win32EvtLog) (s : LoggingState) :
    LoggingState × List LogLine × List (String × List ReadingCell) :=
  match getReadingsTry w s with
  | .ok logs => (s, [], [("windows_logs", logs.map ReadingCell.entry)])
  | .error e =>
      (s,
       [⟨.error, "Error reading Windows logs: " ++ e⟩],
       [("windows_logs", [ReadingCell.err e])])

/-- Logging.do_command: logs an error line and raises NotImplementedError
for every command. -/
def Logging.do_command (_command : List (String × PValue)) :
    List LogLine × Except PyError (List (String × PValue)) :=
  ([⟨.error, "`do_command` is not implemented"⟩], .error .notImplementedError)

/-- An opaque framework geometry value (viam.proto.common.Geometry); the
source never constructs or inspects one. -/
structure Geometry where
  mk ::
deriving DecidableEq, Repr

/-- Logging.get_geometries: logs an error line and raises
NotImplementedError for every input. -/
def Logging.get_geometries (_extra : Option (List (String × PValue))) :
    List LogLine × Except PyError (List Geometry) :=
  ([⟨.error, "`get_geometries` is not implemented"⟩], .error .notImplementedError)

/-! Concrete fixtures used to instantiate the theorems below. -/

/-- A configuration whose attribute struct is empty. -/
def emptyConfig : ComponentConfig := ⟨[]⟩

/-- The rational 2.7, built directly from numerator and denominator. -/
def qTwoPointSeven : ℚ := ⟨27, 10, by decide, by decide⟩

/-- All three fields present with falsy payloads: empty strings and the
number 0. -/
def emptyStrConfig : ComponentConfig :=
  ⟨[("server", .stringValue ""), ("log_type", .stringValue ""),
    ("num_entries", .numberValue 0)]⟩

/-- All three fields present, num_entries set to the number -3. -/
def negEntriesConfig : ComponentConfig :=
  ⟨[("server", .stringValue ""), ("log_type", .stringValue ""),
    ("num_entries", .numberValue (-3))]⟩

/-- All three fields present, num_entries set to the number 2.7. -/
def fracEntriesConfig : ComponentConfig :=
  ⟨[("server", .stringValue "srv"), ("log_type", .stringValue "System"),
    ("num_entries", .numberValue qTwoPointSeven)]⟩

/-- Three native events; the first carries an event id with severity bits
set in its upper half. -/
def testEvents : List EventEntry :=
  [⟨"t0", "s0", 0x800A0002, 1, 0⟩, ⟨"t1", "s1", 7, 2, 0⟩, ⟨"t2", "s2", 8, 3, 0⟩]

/-- A platform oracle on which every call succeeds and FormatMessage is
available. -/
def testW : Win32EvtLog :=
  { OpenEventLog := fun _ _ => .ok 0
    ReadEventLog := fun _ _ _ => .ok testEvents
    hasFormatMessage := true
    FormatMessage := fun e => .ok ("m" ++ e.SourceName)
    CloseEventLog := fun _ => .ok () }

/-- The same oracle without the FormatMessage capability. -/
def wNoFmt : Win32EvtLog :=
  { testW with hasFormatMessage := false }

/-- Component state configured for two entries. -/
def sTestTwo : LoggingState :=
  { server := "localhost", log_type := "Application", num_entries := 2 }

/-- The records get_readings builds from the first two test events. -/
def testLogsTwo : List LogRecord :=
  [⟨"t0", "s0", 2, 1, 0, some "ms0"⟩, ⟨"t1", "s1", 7, 2, 0, some "ms1"⟩]

/-- The first test event, with native id 0x800A0002. -/
def e800A : EventEntry := ⟨"t0", "s0", 0x800A0002, 1, 0⟩

/-- The record built from e800A when formatting is unavailable. -/
def r800A : LogRecord := ⟨"t0", "s0", 2, 1, 0, none⟩

/-! Helper lemmas shared by the claim theorems. -/

@[simp]
theorem exceptBind_ok {α β ε : Type} (a : α) (f : α → Except ε β) :
    (Except.ok a >>= f) = f a := rfl

@[simp]
theorem exceptBind_error {α β ε : Type} (e : ε) (f : α → Except ε β) :
    ((Except.error e : Except ε α) >>= f) = (Except.error e : Except ε β) := rfl

theorem buildRecords_ok (w : Win32EvtLog) (es : List EventEntry)
    (rs : List LogRecord) (h : buildRecords w es = Except.ok rs) :
    rs.length = es.length ∧
    ∀ i (hi : i < es.length) (hi2 : i < rs.length),
      buildRecord w (es.get ⟨i, hi⟩) = Except.ok (rs.get ⟨i, hi2⟩) := by
  induction es generalizing rs with
  | nil =>
    simp only [buildRecords] at h
    cases h
    exact ⟨rfl, fun i hi _ => absurd hi (Nat.not_lt_zero i)⟩
  | cons e es ih =>
    simp only [buildRecords] at h
    cases hr : buildRecord w e with
    | error msg => rw [hr] at h; exact absurd h (by simp)
    | ok r =>
      rw [hr] at h
      cases hrs : buildRecords w es with
      | error msg => rw [hrs] at h; exact absurd h (by simp)
      | ok rs2 =>
        rw [hrs] at h
        simp only [exceptBind_ok, Except.ok.injEq] at h
        cases h
        obtain ⟨hlen, hget⟩ := ih rs2 hrs
        refine ⟨by simp [hlen], ?_⟩
        intro i hi hi2
        cases i with
        | zero => exact hr
        | succ j =>
          exact hget j (Nat.lt_of_succ_lt_succ hi) (Nat.lt_of_succ_lt_succ hi2)

/-- C8: validate_config returns an empty required-dependency list and an
empty optional-dependency list for every configuration object. -/
theorem validate_config_no_deps (config : ComponentConfig) :
    Logging.validate_config config = ([], []) := rfl

/-- C9: get_readings leaves the configuration state untouched: whatever the
platform oracle does, the state returned alongside the readings equals the
state passed in. -/
theorem get_readings_frame (w : Win32EvtLog) (s : LoggingState) :
    (Logging.get_readings w s).1 = s := by
  cases h : getReadingsTry w s <;> simp [Logging.get_readings, h]

/-- C5: do_command and get_geometries each log one error line and raise
NotImplementedError; neither ever returns a value. -/
theorem unimplemented_ops_raise (command : List (String × PValue))
    (extra : Option (List (String × PValue))) :
    (Logging.do_command command).2 = Except.error PyError.notImplementedError ∧
    (Logging.do_command command).1 =
      [⟨Severity.error, "`do_command` is not implemented"⟩] ∧
    (∀ v, (Logging.do_command command).2 ≠ Except.ok v) ∧
    (Logging.get_geometries extra).2 = Except.error PyError.notImplementedError ∧
    (Logging.get_geometries extra).1 =
      [⟨Severity.error, "`get_geometries` is not implemented"⟩] ∧
    (∀ g, (Logging.get_geometries extra).2 ≠ Except.ok g) := by
  refine ⟨rfl, rfl, ?_, rfl, rfl, ?_⟩ <;> intro x h <;> exact Except.noConfusion h

/-- C1: get_readings never propagates an exception: for every oracle and
state it returns a mapping with the single key "windows_logs", whose value
is either the full record sequence of a successful try-block, or, when any
platform call fails, exactly the one-element sequence holding the error
cell with the failure description; records and error never mix. -/
theorem get_readings_never_raises (w : Win32EvtLog) (s : LoggingState) :
    ∃ v, (Logging.get_readings w s).2.2 = [("windows_logs", v)] ∧
      ((∃ logs, getReadingsTry w s = Except.ok logs ∧
          v = logs.map ReadingCell.entry) ∨
       (∃ e, getReadingsTry w s = Except.error e ∧
          v = [ReadingCell.err e])) := by
  cases h : getReadingsTry w s with
  | ok logs =>
    exact ⟨logs.map ReadingCell.entry, by simp [Logging.get_readings, h],
      Or.inl ⟨logs, rfl, rfl⟩⟩
  | error e =>
    exact ⟨[ReadingCell.err e], by simp [Logging.get_readings, h],
      Or.inr ⟨e, rfl, rfl⟩⟩

/-- C4: every record built from a native event carries as event_id the
native identifier masked with 0xFFFF, which is its value modulo 2^16: the
lower 16 bits with the upper bits discarded. -/
theorem record_event_id_mask (w : Win32EvtLog) (event : EventEntry)
    (r : LogRecord) (h : buildRecord w event = Except.ok r) :
    r.EventID = event.EventID &&& 0xFFFF ∧ r.EventID = event.EventID % 2 ^ 16 := by
  have hmask : event.EventID &&& 0xFFFF = event.EventID % 2 ^ 16 := by
    have h16 : (0xFFFF : ℕ) = 2 ^ 16 - 1 := by norm_num
    rw [h16, Nat.and_pow_two_sub_one_eq_mod]
  simp only [buildRecord] at h
  cases hw : w.hasFormatMessage with
  | false =>
    rw [hw] at h
    simp only [Bool.false_eq_true, if_false, exceptBind_ok, Except.ok.injEq] at h
    cases h
    exact ⟨rfl, hmask⟩
  | true =>
    rw [hw] at h
    cases hf : w.FormatMessage event with
    | error msg => rw [hf] at h; exact absurd h (by simp [Except.map])
    | ok m =>
      rw [hf] at h
      simp only [if_true, Except.map, exceptBind_ok, Except.ok.injEq] at h
      cases h
      exact ⟨rfl, hmask⟩

/-- Witness for C4: on the no-format oracle, the event with native id
0x800A0002 yields the record r800A, whose event_id is the masked value 2. -/
theorem record_event_id_mask_witness :
    buildRecord wNoFmt e800A = Except.ok r800A ∧
    r800A.EventID = e800A.EventID &&& 0xFFFF ∧ r800A.EventID = 2 :=
  ⟨rfl, (record_event_id_mask wNoFmt e800A r800A rfl).1, rfl⟩

/-- C7: in every record built from a native event, the message field holds
the platform-formatted string when the formatting capability is available,
and is absent (None) when it is not. -/
theorem record_message_field (w : Win32EvtLog) (event : EventEntry)
    (r : LogRecord) (h : buildRecord w event = Except.ok r) :
    (w.hasFormatMessage = true →
      ∃ m, w.FormatMessage event = Except.ok m ∧ r.Message = some m) ∧
    (w.hasFormatMessage = false → r.Message = none) := by
  simp only [buildRecord] at h
  cases hw : w.hasFormatMessage with
  | false =>
    rw [hw] at h
    simp only [Bool.false_eq_true, if_false, exceptBind_ok, Except.ok.injEq] at h
    cases h
    exact ⟨fun hcontra => absurd hcontra (by simp), fun _ => rfl⟩
  | true =>
    rw [hw] at h
    cases hf : w.FormatMessage event with
    | error msg => rw [hf] at h; exact absurd h (by simp [Except.map])
    | ok m =>
      rw [hf] at h
      simp only [if_true, Except.map, exceptBind_ok, Except.ok.injEq] at h
      cases h
      exact ⟨fun _ => ⟨m, rfl, rfl⟩, fun hcontra => absurd hcontra (by simp)⟩

/-- Witness for C7: with the formatting capability the record for e800A
holds the formatted message, without it the record r800A holds none. -/
theorem record_message_field_witness :
    (∃ m, testW.FormatMessage e800A = Except.ok m ∧
      (LogRecord.mk "t0" "s0" 2 1 0 (some "ms0")).Message = some m) ∧
    r800A.Message = none :=
  ⟨(record_message_field testW e800A ⟨"t0", "s0", 2, 1, 0, some "ms0"⟩ rfl).1 rfl,
   (record_message_field wNoFmt e800A r800A rfl).2 rfl⟩

/-- Counterexample to C6 as stated: with the empty configuration the first
application of reconfigure raises AttributeError, and so does the second —
the second application is not error-free for every input. -/
theorem reconfigure_idempotent_cex :
    (Logging.reconfigure emptyConfig
      (Logging.reconfigure emptyConfig Logging.init).1).2.2 ≠ none := by decide

/-- C6 (amended): reconfigure is idempotent in state and error outcome:
for every configuration and starting state, the second application yields
exactly the state and the error outcome of the first; in particular, when
the first application succeeds the second succeeds with the same state. -/
theorem reconfigure_idempotent (c : ComponentConfig) (s : LoggingState) :
    (Logging.reconfigure c (Logging.reconfigure c s).1).1 =
      (Logging.reconfigure c s).1 ∧
    (Logging.reconfigure c (Logging.reconfigure c s).1).2.2 =
      (Logging.reconfigure c s).2.2 := by
  cases h1 : c.fieldsGet "server" with
  | none => simp [Logging.reconfigure, h1]
  | some v1 =>
    cases h2 : c.fieldsGet "log_type" with
    | none => simp [Logging.reconfigure, h1, h2]
    | some v2 =>
      cases h3 : c.fieldsGet "num_entries" with
      | none => simp [Logging.reconfigure, h1, h2, h3]
      | some v3 => simp [Logging.reconfigure, h1, h2, h3]

/-- Counterexample to C2 as stated: with every field absent, reconfigure
raises AttributeError instead of completing with the defaults; and with a
present negative num_entries of -3, it completes but stores -3, not the
default 5. -/
theorem reconfigure_defaults_cex :
    (Logging.reconfigure emptyConfig Logging.init).2.2 =
      some (PyError.attributeError "string_value") ∧
    (Logging.reconfigure negEntriesConfig Logging.init).2.2 = none ∧
    (Logging.reconfigure negEntriesConfig Logging.init).1.num_entries = -3 := by
  decide

/-- C2 (amended): when the three fields are all present, with empty-string
values for server and log_type and a num_entries value whose numeric
reading is zero (a zero number or a non-numeric kind), reconfigure
completes without error and leaves the default state of __init__. -/
theorem reconfigure_defaults (c : ComponentConfig) (s : LoggingState)
    (v1 v2 v3 : PValue)
    (h1 : c.fieldsGet "server" = some v1) (h1e : v1.string_value = "")
    (h2 : c.fieldsGet "log_type" = some v2) (h2e : v2.string_value = "")
    (h3 : c.fieldsGet "num_entries" = some v3) (h3e : v3.number_value = 0) :
    (Logging.reconfigure c s).2.2 = none ∧
    (Logging.reconfigure c s).1 = Logging.init := by
  simp [Logging.reconfigure, h1, h2, h3, h1e, h2e, h3e, pyOrString, pyOrNum,
    pyInt, Logging.init]

/-- Witness for C2 (amended): the all-fields-falsy configuration applied to
the initial state succeeds and yields the default state. -/
theorem reconfigure_defaults_witness :
    (Logging.reconfigure emptyStrConfig Logging.init).2.2 = none ∧
    (Logging.reconfigure emptyStrConfig Logging.init).1 = Logging.init :=
  reconfigure_defaults emptyStrConfig Logging.init
    (.stringValue "") (.stringValue "") (.numberValue 0)
    rfl rfl rfl rfl rfl rfl

/-- C10: when a successful reconfigure reads a non-zero numeric num_entries
value x, the stored num_entries is Python int(x): truncation toward zero. -/
theorem reconfigure_num_entries_trunc (c : ComponentConfig) (s : LoggingState)
    (x : ℚ) (h3 : c.fieldsGet "num_entries" = some (.numberValue x))
    (hx : x ≠ 0) (hok : (Logging.reconfigure c s).2.2 = none) :
    (Logging.reconfigure c s).1.num_entries = pyInt x := by
  cases h1 : c.fieldsGet "server" with
  | none => simp [Logging.reconfigure, h1] at hok
  | some v1 =>
    cases h2 : c.fieldsGet "log_type" with
    | none => simp [Logging.reconfigure, h1, h2] at hok
    | some v2 =>
      simp [Logging.reconfigure, h1, h2, h3, PValue.number_value, pyOrNum, hx]

/-- Witness for C10: num_entries set to 2.7 stores its truncation 2. -/
theorem reconfigure_num_entries_trunc_witness :
    (Logging.reconfigure fracEntriesConfig Logging.init).1.num_entries =
      pyInt qTwoPointSeven ∧ pyInt qTwoPointSeven = 2 :=
  ⟨reconfigure_num_entries_trunc fracEntriesConfig Logging.init qTwoPointSeven
      rfl (by decide) (by decide),
   by decide⟩

/-- C3: for a nonnegative configured num_entries, a successful get_readings
run whose platform read returned the sequence events yields exactly the
first min(num_entries, length events) records, in platform order: the
result has length min(num_entries, length events) and its i-th record is
built from the i-th event. -/
theorem get_readings_truncation (w : Win32EvtLog) (s : LoggingState)
    (hpos : 0 ≤ s.num_entries) (handle : ℕ) (events : List EventEntry)
    (logs : List LogRecord)
    (hopen : w.OpenEventLog s.server s.log_type = Except.ok handle)
    (hread : w.ReadEventLog handle readFlags 0 = Except.ok events)
    (hok : getReadingsTry w s = Except.ok logs) :
    logs.length = min s.num_entries.toNat events.length ∧
    ∀ i (hi : i < events.length) (hi2 : i < logs.length),
      buildRecord w (events.get ⟨i, hi⟩) = Except.ok (logs.get ⟨i, hi2⟩) := by
  simp only [getReadingsTry, hopen, hread, exceptBind_ok] at hok
  cases hb : buildRecords w (pySliceTo s.num_entries events) with
  | error msg => rw [hb] at hok; exact absurd hok (by simp)
  | ok rs =>
    rw [hb] at hok
    cases hc : w.CloseEventLog handle with
    | error msg => rw [hc] at hok; exact absurd hok (by simp)
    | ok u =>
      rw [hc] at hok
      simp only [exceptBind_ok, Except.ok.injEq] at hok
      subst hok
      have hslice : pySliceTo s.num_entries events =
          events.take s.num_entries.toNat := by
        simp [pySliceTo, hpos]
      rw [hslice] at hb
      obtain ⟨hlen, hget⟩ := buildRecords_ok w _ rs hb
      refine ⟨by rw [hlen, List.length_take], ?_⟩
      intro i hi hi2
      have hi3 : i < (events.take s.num_entries.toNat).length := by
        rw [← hlen]; exact hi2
      have hstep := hget i hi3 hi2
      have hsame : (events.take s.num_entries.toNat).get ⟨i, hi3⟩ =
          events.get ⟨i, hi⟩ := by
        simp [List.getElem_take]
      rw [hsame] at hstep
      exact hstep

/-- Witness for C3: with three events available and num_entries two, the
successful result holds exactly the two records built from the first two
events in order. -/
theorem get_readings_truncation_witness :
    testLogsTwo.length = min (Int.toNat 2) testEvents.length ∧
    buildRecord testW (testEvents.get ⟨0, by decide⟩) =
      Except.ok (testLogsTwo.get ⟨0, by decide⟩) ∧
    buildRecord testW (testEvents.get ⟨1, by decide⟩) =
      Except.ok (testLogsTwo.get ⟨1, by decide⟩) := by
  have h := get_readings_truncation testW sTestTwo (by decide) 0 testEvents
    testLogsTwo rfl rfl rfl
  exact ⟨h.1, h.2 0 (by decide) (by decide), h.2 1 (by decide) (by decide)⟩
